import Mathlib

/-!
Shallow embedding of `src/packages/ckeditor5-ui/src/ui/view.js` (the `View`
class of dol-lab/ckeditor5): the data-binding factory (`bind`), the event
delegation preparer (`prepareListeners` / `prepareElementListeners` /
`getDOMListenerAttacher`), and the lifecycle operations (`el` accessor,
`render`, `destroy`).

JavaScript values relevant to the bindings are modelled by `JSVal` (with an
explicit `undef` sentinel, since the source tests `typeof v != 'undefined'`).
JavaScript functions (binding callbacks and DOM updaters) are identified by
natural-number ids; their input/output behaviour is an explicit environment
`sem : Nat → Nat → JSVal → JSVal` mapping (function id, element id, value) to
the returned value.  Side effects (subscriptions, handler invocations, DOM
mutations) are recorded in explicit event traces.
-/

/-- A JavaScript value, as far as the binding machinery observes it:
`undef` is the `undefined` sentinel tested by `typeof v != 'undefined'`. -/
inductive JSVal where
  | undef : JSVal
  | jsNull : JSVal
  | str : String → JSVal
  | int : Int → JSVal
  | bool : Bool → JSVal
deriving DecidableEq, Repr

/-- One invocation of a JavaScript function with an element and a value:
`fn` is the function id, `el` the element id, `arg` the value argument. -/
structure Invocation where
  fn : Nat
  el : Nat
  arg : JSVal
deriving DecidableEq, Repr

/-- The `onModelChange` closure from `bind` (view.js lines 93-99):
it computes `processedValue = callback( el, value )` and, if the processed
value is not `undefined`, additionally invokes `domUpdater( el, processedValue )`.
The returned list is the ordered sequence of function invocations performed. -/
def onModelChange (sem : Nat → Nat → JSVal → JSVal) (callback domUpdater : Nat)
    (el : Nat) (value : JSVal) : List Invocation :=
  let processedValue := sem callback el value
  if processedValue = JSVal.undef then
    [⟨callback, el, value⟩]
  else
    [⟨callback, el, value⟩, ⟨domUpdater, el, processedValue⟩]

/-- A handler subscribed to `change:<property>` by one invocation of the
attachment function returned by `bind`: it closes over that invocation's
element `el` and DOM updater `domUpdater`.  (The `callback` variable is NOT
stored here: in the source it is a single closure variable of `bind`, shared
by all invocations of the attachment function, read at dispatch time.) -/
structure Handler where
  el : Nat
  domUpdater : Nat
deriving DecidableEq, Repr

/-- Whether a trace entry was produced by the synthetic initial call
`onModelChange( null, this.model[ property ] )` performed at attachment time,
or by a real `change:<property>` notification from the model. -/
inductive Origin where
  | synthetic : Origin
  | real : Origin
deriving DecidableEq, Repr

/-- Observable events of the binding machinery: a subscription made via
`this.listenTo( this.model, 'change:' + property, onModelChange )`, or a
function invocation performed inside some handler call.  `hIdx` identifies the
handler (in order of attachment). -/
inductive BEvent where
  | subscribed (hIdx : Nat) (evtName : String)
  | invoked (origin : Origin) (hIdx : Nat) (inv : Invocation)
deriving DecidableEq, Repr

/-- The state of one `bind( property, callback )` call and the model property
it observes: `modelVal` is the current value of `this.model[ property ]`,
`closure` is the mutable closure variable `callback` of `bind` (`none` models
the `undefined` of an omitted argument), and `handlers` lists the handlers
subscribed so far, in subscription order. -/
structure BSys where
  modelVal : JSVal
  closure : Option Nat
  handlers : List Handler
deriving DecidableEq, Repr

/-- One invocation of the attachment function returned by `bind` (view.js
lines 83-100) with a concrete element `el` and DOM updater `u`:
it executes `callback = callback || domUpdater`, subscribes `onModelChange`
to `change:<property>`, and then performs the synthetic initial call
`onModelChange( null, this.model[ property ] )`.  Returns the new state and
the ordered event trace. -/
def attachStep (sem : Nat → Nat → JSVal → JSVal) (property : String)
    (s : BSys) (el u : Nat) : BSys × List BEvent :=
  let cb := s.closure.getD u
  let idx := s.handlers.length
  ( ⟨s.modelVal, some cb, s.handlers ++ [⟨el, u⟩]⟩,
    BEvent.subscribed idx ("change:" ++ property) ::
      (onModelChange sem cb u el s.modelVal).map (fun i => .invoked .synthetic idx i) )

/-- A mutation of the observed model property to value `v`.  The observable
model (an external collaborator) fires `change:<property>` with the new value
to every subscribed handler, in subscription order; each handler call executes
`onModelChange` reading the current shared closure variable `callback`. -/
def setProp (sem : Nat → Nat → JSVal → JSVal) (s : BSys) (v : JSVal) :
    BSys × List BEvent :=
  ( ⟨v, s.closure, s.handlers⟩,
    match s.closure with
    | none => []
    | some cb =>
        s.handlers.enum.flatMap (fun p =>
          (onModelChange sem cb p.2.domUpdater p.2.el v).map
            (fun i => .invoked .real p.1 i)) )

/-- Operations that can be performed against one binding: invoke the
attachment function on a fresh element/updater pair, or mutate the model
property (triggering change notifications). -/
inductive BOp where
  | attach (el u : Nat)
  | set (v : JSVal)
deriving DecidableEq, Repr

/-- Single step of the binding system. -/
def bstep (sem : Nat → Nat → JSVal → JSVal) (property : String) (s : BSys) :
    BOp → BSys × List BEvent
  | .attach el u => attachStep sem property s el u
  | .set v => setProp sem s v

/-- Run a sequence of operations, concatenating the event traces in order. -/
def brun (sem : Nat → Nat → JSVal → JSVal) (property : String) :
    BSys → List BOp → BSys × List BEvent
  | s, [] => (s, [])
  | s, op :: ops =>
      let r1 := bstep sem property s op
      let r2 := brun sem property r1.1 ops
      (r2.1, r1.2 ++ r2.2)

/-!
Event delegation preparer: `prepareListeners`, `prepareElementListeners` and
`getDOMListenerAttacher` (view.js lines 156-257).

A value stored in a template definition's `on` map is either a string (an
application event name to fire on the View), a function (a user callback,
identified by id), an array of such values, or — after a preparation pass —
an attachment function produced by `getDOMListenerAttacher` wrapping the
value it was given.  In JavaScript the attachment function is itself a
function value stored back into the `on` map, which is why `attacher` is a
constructor of the same type.
-/

/-- A value of an `on` entry in a template definition. -/
inductive OnValue where
  | evt (name : String)
  | fn (id : Nat)
  | attacher (inner : OnValue)
  | arr (items : List OnValue)

/-- The JavaScript test `typeof evtNameOrCallback == 'function'`: user
callbacks and attachment functions are functions; strings and arrays are not. -/
def OnValue.isFunction : OnValue → Bool
  | .fn _ => true
  | .attacher _ => true
  | _ => false

/-- The JavaScript test `Array.isArray( evtNameOrCallback )`. -/
def OnValue.isArr : OnValue → Bool
  | .arr _ => true
  | _ => false

/-- `getDOMListenerAttacher( evtNameOrCallback )` (view.js line 172): returns
a new attachment function closing over the given value. -/
def getDOMListenerAttacher (v : OnValue) : OnValue := .attacher v

/-- The body of the `for ( domEvtName in on )` loop of
`prepareElementListeners` (view.js lines 226-249): an array value is mapped
element-wise through `getDOMListenerAttacher`; any other value is replaced by
`getDOMListenerAttacher` of itself, unconditionally. -/
def prepareOnEntry (v : OnValue) : OnValue :=
  match v with
  | .arr items => .arr (items.map getDOMListenerAttacher)
  | other => .attacher other

/-- A template definition (the shape consumed by `prepareElementListeners`):
an `on` map (modelled as an ordered association list, field `onMap` since `on`
is reserved in Lean) and a list of child definitions. -/
inductive TDef where
  | mk (onMap : List (String × OnValue)) (children : List TDef)

/-- The `on` map of a template definition. -/
def TDef.onMap : TDef → List (String × OnValue)
  | .mk o _ => o

/-- The children of a template definition. -/
def TDef.children : TDef → List TDef
  | .mk _ c => c

mutual
/-- `prepareElementListeners( def )` (view.js lines 220-256): rewrites every
`on` entry via `prepareOnEntry` and recurses into all children
(`def.children.map( prepareElementListeners )`).  The source mutates `def.on`
in place; here the mutated definition is returned and stored back into the
view state by `render`. -/
def prepareElementListeners : TDef → TDef
  | .mk onMap children =>
      .mk (onMap.map (fun p => (p.1, prepareOnEntry p.2)))
          (prepareChildren children)

/-- Recursion of `prepareElementListeners` over the `children` array. -/
def prepareChildren : List TDef → List TDef
  | [] => []
  | c :: cs => prepareElementListeners c :: prepareChildren cs
end

/-- A native DOM event; only the target element's identity is observed by the
delegation logic (`domEvt.target.matches( selector )`). -/
structure DomEvt where
  target : Nat
deriving DecidableEq, Repr

/-- The native DOM listener registered by invoking an attachment function as
`( el, domEvtName, selector )` (view.js lines 199-210): it closes over the
element, the native event name, the optional selector, and the value
`evtNameOrCallback` captured by `getDOMListenerAttacher`. -/
structure NativeListener where
  el : Nat
  domEvtName : String
  selector : Option String
  value : OnValue

/-- Invoking a prepared `on` value as an attachment function
`( el, domEvtName, selector )`.  Only values produced by
`getDOMListenerAttacher` are attachment functions; the result is the native
listener registered via `that.listenTo( el, domEvtName, ... )`. -/
def invokeAttacher : OnValue → Nat → String → Option String → Option NativeListener
  | .attacher v, el, n, sel => some ⟨el, n, sel, v⟩
  | _, _, _, _ => none

/-- The observable action taken by a native listener for one dispatch:
either the View fires an application event (`that.fire( evtNameOrCallback,
domEvt )`) or a function value is invoked with the native event
(`evtNameOrCallback( domEvt )`). -/
inductive LAction where
  | fireEvent (name : OnValue) (payload : DomEvt)
  | invokeFunction (f : OnValue) (arg : DomEvt)

/-- The inner branch of the listener body (view.js lines 203-207): if the
captured value is a function it is called with the native event, otherwise it
is fired as an application event name with the native event as payload. -/
def runListenerBody (v : OnValue) (e : DomEvt) : LAction :=
  if v.isFunction then .invokeFunction v e else .fireEvent v e

/-- Dispatch of a native DOM event to a registered listener (view.js lines
201-209): the action runs under the guard
`!selector || domEvt.target.matches( selector )`, where `matches` abstracts
the DOM's CSS-selector matching. -/
def fireNative (elMatches : Nat → String → Bool) (l : NativeListener) (e : DomEvt) :
    List LAction :=
  if (match l.selector with
      | none => true
      | some sel => elMatches e.target sel) then
    [runListenerBody l.value e]
  else []

/-!
View lifecycle: the `el` accessor (view.js lines 58-60), `render` (lines
108-128) and `destroy` (lines 133-147).

Rendered DOM elements are identified by natural numbers; `nextElId` is a
fresh-identity allocator modelling the fact that `new Template( ... ).render()`
materializes a brand-new element tree on every call.  Side effects are
recorded in a `DEvent` trace.
-/

/-- Observable lifecycle effects: an element materialized by
`this._template.render()`, an element detached by `this.el.remove()`, a region
removed from the collection, a region destroyed, and the final bulk
`this.stopListening()`. -/
inductive DEvent where
  | rendered (el : Nat)
  | removedFromDom (el : Nat)
  | regionRemoved (region : Nat)
  | regionDestroyed (region : Nat)
  | stoppedListening
deriving DecidableEq, Repr

/-- The state of a `View` instance: `model` (null after destroy), the
`template` description (absent when the concrete view configured none; mutated
in place by listener preparation), the cached `_el`, the `_template` compiled
on render, the fresh-element allocator, and the owned `regions` (by id). -/
structure ViewState where
  model : Option (List (String × JSVal))
  template : Option TDef
  _el : Option Nat
  _template : Option TDef
  nextElId : Nat
  regions : List Nat

/-- The error thrown by `render`: a `CKEditorError` whose message names the
`ui-view-notemplate` condition and whose context object `{ view: this }`
carries the offending view instance. -/
inductive ViewErr where
  | missingTemplate (message : String) (view : ViewState)

/-- `prepareListeners()` (view.js lines 156-161): if a template is configured,
run `prepareElementListeners` on it (an in-place mutation of `this.template`,
modelled by storing the rewritten definition back). -/
def prepareListeners (s : ViewState) : ViewState :=
  match s.template with
  | some t => { s with template := some (prepareElementListeners t) }
  | none => s

/-- `render()` (view.js lines 108-128): throws `ui-view-notemplate` when no
template is configured; otherwise prepares the listeners, compiles
`this._template = new Template( this.template )`, and materializes and caches
`this._el = this._template.render()` — a fresh element on every call. -/
def render (s : ViewState) : Except ViewErr (Nat × ViewState × List DEvent) :=
  match s.template with
  | none =>
      .error (.missingTemplate
        "ui-view-notemplate: This View implements no template to render." s)
  | some _ =>
      let s1 := prepareListeners s
      let e := s1.nextElId
      .ok (e, { s1 with _template := s1.template, _el := some e,
                        nextElId := s1.nextElId + 1 },
           [.rendered e])

/-- The `el` accessor (view.js lines 58-60): `return this._el || this.render()`
— the cached element if one exists, otherwise a (lazy) render. -/
def el (s : ViewState) : Except ViewErr (Nat × ViewState × List DEvent) :=
  match s._el with
  | some e => .ok (e, s, [])
  | none => render s

/-- Modelled from the spec: the `NamedCollection` holding `this.regions` is
not under `src/` (an external collaborator); per the spec's region-collection
contract it is an ordered collection supporting add/remove/iterate where
removing yields the removed item for explicit destruction by the caller.
`this.regions.forEach( r => this.regions.remove( r ).destroy() )` is modelled
as iterating the regions present at entry, removing each and destroying it. -/
def regionsTeardown (rs : List Nat) : List DEvent :=
  rs.flatMap (fun r => [.regionRemoved r, .regionDestroyed r])

/-- `destroy()` (view.js lines 133-147): drops the model reference, then — if
a template is configured — evaluates `this.el` (the forcing accessor) and
removes that element from the DOM, then removes and destroys every region,
and finally calls `this.stopListening()`. -/
def destroy (s : ViewState) : Except ViewErr (ViewState × List DEvent) := do
  let s1 := { s with model := none }
  let (s2, tr1) ←
    (match s1.template with
     | some _ => do
         let (e, sr, tr) ← el s1
         pure (sr, tr ++ [DEvent.removedFromDom e])
     | none => pure (s1, ([] : List DEvent)))
  let s3 := { s2 with regions := ([] : List Nat) }
  pure (s3, tr1 ++ regionsTeardown s2.regions ++ [DEvent.stoppedListening])

/-!
Theorems settling the claims, in claim order.
-/

/-- The message of the `ui-view-notemplate` error thrown by `render`. -/
def noTemplateMsg : String :=
  "ui-view-notemplate: This View implements no template to render."

/-- A view constructed with a template description but never rendered:
fresh state as produced by the constructor (view.js lines 31-51) of a concrete
view whose `template` is an empty definition. -/
def unrenderedView : ViewState :=
  { model := some [], template := some (.mk [] []), _el := none,
    _template := none, nextElId := 0, regions := [] }

/-- C1 (code bug): the claim says destroying a never-rendered View with a
template does not attempt element removal and does not force a render; but
`destroy` runs `if ( this.template ) { this.el.remove(); }` with the forcing
accessor `this.el`, so on a never-rendered view with a template it renders the
template (the `.rendered 0` event, and `_el` becomes set) and removes the
freshly rendered element (the `.removedFromDom 0` event). -/
theorem destroy_unrendered_forces_render_and_removal :
    destroy unrenderedView =
      .ok ({ model := none, template := some (.mk [] []), _el := some 0,
             _template := some (.mk [] []), nextElId := 1, regions := [] },
           [.rendered 0, .removedFromDom 0, .stoppedListening]) := by
  rfl

/-- C3: for a View with no template configured, `render` throws the
`ui-view-notemplate` error carrying the offending view instance, and the `el`
accessor (which on an unrendered view delegates to `render`) throws the same
error. -/
theorem render_without_template_throws (s : ViewState) (h : s.template = none) :
    render s = .error (.missingTemplate noTemplateMsg s) ∧
    (s._el = none → el s = .error (.missingTemplate noTemplateMsg s)) := by
  constructor
  · simp [render, h, noTemplateMsg]
  · intro he
    simp [el, he, render, h, noTemplateMsg]

/-- Witness for C3 at a concrete template-less view. -/
theorem render_without_template_throws_witness :
    render { model := some [], template := none, _el := none, _template := none,
             nextElId := 0, regions := [] } =
      .error (.missingTemplate noTemplateMsg
        { model := some [], template := none, _el := none, _template := none,
          nextElId := 0, regions := [] }) ∧
    (({ model := some [], template := none, _el := none, _template := none,
        nextElId := 0, regions := [] } : ViewState)._el = none →
      el { model := some [], template := none, _el := none, _template := none,
           nextElId := 0, regions := [] } =
        .error (.missingTemplate noTemplateMsg
          { model := some [], template := none, _el := none, _template := none,
            nextElId := 0, regions := [] })) :=
  render_without_template_throws _ rfl

/-- C7: for a View with a configured template, reading the `el` accessor twice
yields the identical element with no second materialization (the second read
returns the cache, with an empty effect trace), while calling `render` twice
materializes a fresh element each time (the two rendered elements are
distinct, and each call emits a `rendered` event). -/
theorem el_accessor_cached_but_render_not_memoized (s : ViewState) (t : TDef)
    (h : s.template = some t) :
    (∃ e s' tr, el s = .ok (e, s', tr) ∧ el s' = .ok (e, s', [])) ∧
    (∃ e1 s1 e2 s2, render s = .ok (e1, s1, [.rendered e1]) ∧
       render s1 = .ok (e2, s2, [.rendered e2]) ∧ e1 ≠ e2) := by
  constructor
  · match he : s._el with
    | some e =>
        exact ⟨e, s, [], by simp [el, he], by simp [el, he]⟩
    | none =>
        refine ⟨s.nextElId,
          { s with template := some (prepareElementListeners t),
                   _template := some (prepareElementListeners t),
                   _el := some s.nextElId, nextElId := s.nextElId + 1 },
          [.rendered s.nextElId], ?_, ?_⟩
        · simp [el, he, render, h, prepareListeners]
        · simp [el]
  · refine ⟨s.nextElId,
      { s with template := some (prepareElementListeners t),
               _template := some (prepareElementListeners t),
               _el := some s.nextElId, nextElId := s.nextElId + 1 },
      s.nextElId + 1,
      { s with template := some (prepareElementListeners (prepareElementListeners t)),
               _template := some (prepareElementListeners (prepareElementListeners t)),
               _el := some (s.nextElId + 1), nextElId := s.nextElId + 2 },
      ?_, ?_, ?_⟩
    · simp [render, h, prepareListeners]
    · simp [render, prepareListeners]
    · omega

/-- Witness for C7 at a concrete view with an empty template. -/
theorem el_accessor_cached_but_render_not_memoized_witness :
    ((∃ e s' tr, el unrenderedView = .ok (e, s', tr) ∧ el s' = .ok (e, s', [])) ∧
     (∃ e1 s1 e2 s2, render unrenderedView = .ok (e1, s1, [.rendered e1]) ∧
        render s1 = .ok (e2, s2, [.rendered e2]) ∧ e1 ≠ e2)) :=
  el_accessor_cached_but_render_not_memoized unrenderedView (.mk [] []) rfl

/-- C9: destroying a rendered View does not clear the cached `_el`; reading
the `el` accessor afterwards does not throw and returns the very element that
was cached before destruction, with no re-render. -/
theorem el_after_destroy_returns_cached (s : ViewState) (e : Nat)
    (h : s._el = some e) :
    ∃ s' tr, destroy s = .ok (s', tr) ∧ el s' = .ok (e, s', []) := by
  match ht : s.template with
  | some t =>
      refine ⟨{ s with model := none, regions := [] },
        [DEvent.removedFromDom e] ++ regionsTeardown s.regions ++
          [DEvent.stoppedListening], ?_, ?_⟩
      · simp [destroy, ht, el, h]
      · simp [el, h]
  | none =>
      refine ⟨{ s with model := none, regions := [] },
        regionsTeardown s.regions ++ [DEvent.stoppedListening], ?_, ?_⟩
      · simp [destroy, ht]
        rfl
      · simp [el, h]

/-- Witness for C9 at a concrete rendered view. -/
theorem el_after_destroy_returns_cached_witness :
    ∃ s' tr,
      destroy { model := some [], template := some (.mk [] []), _el := some 7,
                _template := some (.mk [] []), nextElId := 8, regions := [3] } =
        .ok (s', tr) ∧
      el s' = .ok (7, s', []) :=
  el_after_destroy_returns_cached _ 7 rfl

/-- Each region of the collection contributes its removal and destruction
events to the teardown trace. -/
theorem mem_regionsTeardown (rs : List Nat) (r : Nat) (hr : r ∈ rs) :
    DEvent.regionRemoved r ∈ regionsTeardown rs ∧
    DEvent.regionDestroyed r ∈ regionsTeardown rs := by
  constructor <;> · simp [regionsTeardown]
                    exact hr

/-- C8: `destroy` nulls the model reference, removes and destroys every owned
region (emptying the collection), and only after all region teardown events
does the bulk `stopListening` unsubscription run — it is the final event of
the destroy trace. -/
theorem destroy_order_regions_then_stop_listening (s : ViewState) :
    ∃ s' pre, destroy s =
        .ok (s', pre ++ regionsTeardown s.regions ++ [DEvent.stoppedListening]) ∧
      s'.model = none ∧ s'.regions = [] ∧
      ∀ r ∈ s.regions,
        DEvent.regionRemoved r ∈ regionsTeardown s.regions ∧
        DEvent.regionDestroyed r ∈ regionsTeardown s.regions := by
  match ht : s.template with
  | none =>
      refine ⟨{ s with model := none, regions := [] }, [], ?_, by simp, by simp,
        fun r hr => mem_regionsTeardown s.regions r hr⟩
      simp [destroy, ht]
      rfl
  | some t =>
      match he : s._el with
      | some e =>
          refine ⟨{ s with model := none, regions := [] },
            [DEvent.removedFromDom e], ?_, by simp, by simp,
            fun r hr => mem_regionsTeardown s.regions r hr⟩
          simp [destroy, ht, el, he]
      | none =>
          refine ⟨{ s with model := none,
                           template := some (prepareElementListeners t),
                           _template := some (prepareElementListeners t),
                           _el := some s.nextElId, nextElId := s.nextElId + 1,
                           regions := [] },
            [DEvent.rendered s.nextElId, DEvent.removedFromDom s.nextElId],
            ?_, by simp, by simp,
            fun r hr => mem_regionsTeardown s.regions r hr⟩
          simp [destroy, ht, el, he, render, prepareListeners]

/-- C5: for a binding created by `bind( p, callback )` (explicit callback `c`)
attached to element `elId` with DOM updater `u`, a change notification with
value `v` first invokes the callback as `c( elId, v )` and then invokes the
DOM updater as `u( elId, processedValue )` if and only if the processed value
`sem c elId v` is not the `undefined` sentinel; when it is `undefined`, the
updater is not invoked for that change. -/
theorem change_invokes_updater_iff_processed_defined
    (sem : Nat → Nat → JSVal → JSVal) (p : String) (c elId u : Nat)
    (v v0 : JSVal) :
    (setProp sem (attachStep sem p ⟨v0, some c, []⟩ elId u).1 v).2 =
      BEvent.invoked .real 0 ⟨c, elId, v⟩ ::
      (if sem c elId v = JSVal.undef then []
       else [BEvent.invoked .real 0 ⟨u, elId, sem c elId v⟩]) := by
  by_cases hc : sem c elId v = JSVal.undef <;>
    simp [attachStep, setProp, onModelChange, hc, List.enum]

/-- C2 (code bug): the attachment function returned by `bind( p )` with no
callback is NOT reusable independently across elements.  The assignment
`callback = callback || domUpdater` mutates the closure variable shared by
all invocations, so after attaching `( el 1, updater 10 )` the second
attachment `( el 2, updater 20 )` uses updater `10` — not its own updater
`20` — as the callback, both in its synthetic initial call and in every later
real change notification (the trace shows function `10` invoked on element
`2`, where the claim requires function `20`). -/
theorem bind_closure_reuses_first_updater :
    (brun (fun _ _ _ => JSVal.undef) "p" ⟨JSVal.int 0, none, []⟩
       [.attach 1 10, .attach 2 20, .set (JSVal.int 1)]).2 =
      [.subscribed 0 "change:p", .invoked .synthetic 0 ⟨10, 1, .int 0⟩,
       .subscribed 1 "change:p", .invoked .synthetic 1 ⟨10, 2, .int 0⟩,
       .invoked .real 0 ⟨10, 1, .int 1⟩, .invoked .real 1 ⟨10, 2, .int 1⟩] := by
  rfl

/-- A raw scalar listener declaration: a string event name or a function
callback (not an array, and not an already-prepared attachment function). -/
def isRawScalar : OnValue → Bool
  | .evt _ => true
  | .fn _ => true
  | _ => false

/-- C6: the listener registered by invoking a prepared attachment function as
`( el, domEvtName, selector )` runs its configured action under selector
filtering: with a selector, a native dispatch runs the action exactly when the
event target matches the selector; with no selector, every dispatch on the
element runs the action.  The action is: invoke the declared function with the
native event, or fire the declared application event with the native event as
payload. -/
theorem delegated_listener_selector_filtering (elMatches : Nat → String → Bool)
    (d : OnValue) (hd : isRawScalar d = true) (elId : Nat) (n : String)
    (e : DomEvt) :
    (invokeAttacher (prepareOnEntry d) elId n none = some ⟨elId, n, none, d⟩ ∧
     fireNative elMatches ⟨elId, n, none, d⟩ e = [runListenerBody d e]) ∧
    (∀ sel : String,
       invokeAttacher (prepareOnEntry d) elId n (some sel) =
         some ⟨elId, n, some sel, d⟩ ∧
       (fireNative elMatches ⟨elId, n, some sel, d⟩ e ≠ [] ↔
         elMatches e.target sel = true) ∧
       fireNative elMatches ⟨elId, n, some sel, d⟩ e =
         (if elMatches e.target sel then [runListenerBody d e] else [])) ∧
    (∀ nm, d = .evt nm → runListenerBody d e = .fireEvent (.evt nm) e) ∧
    (∀ i, d = .fn i → runListenerBody d e = .invokeFunction (.fn i) e) := by
  cases d with
  | evt nm =>
      refine ⟨⟨rfl, by simp [fireNative, runListenerBody]⟩, ?_, ?_, ?_⟩
      · intro sel
        refine ⟨rfl, ?_, ?_⟩ <;>
          by_cases hm : elMatches e.target sel <;> simp [fireNative, hm]
      · intro nm' hnm
        cases hnm
        simp [runListenerBody, OnValue.isFunction]
      · intro i hi
        exact absurd hi (by simp)
  | fn i =>
      refine ⟨⟨rfl, by simp [fireNative, runListenerBody]⟩, ?_, ?_, ?_⟩
      · intro sel
        refine ⟨rfl, ?_, ?_⟩ <;>
          by_cases hm : elMatches e.target sel <;> simp [fireNative, hm]
      · intro nm hnm
        exact absurd hnm (by simp)
      · intro i' hi
        cases hi
        simp [runListenerBody, OnValue.isFunction]
  | attacher v => simp [isRawScalar] at hd
  | arr items => simp [isRawScalar] at hd

/-- Witness for C6: the prepared `click@.item` listener for application event
`foo`, dispatched on a native event whose target matches. -/
theorem delegated_listener_selector_filtering_witness :
    fireNative (fun t _ => t == 5) ⟨1, "click", some ".item", .evt "foo"⟩ ⟨5⟩ =
      (if (fun (t : Nat) (_ : String) => t == 5) (DomEvt.mk 5).target ".item"
       then [runListenerBody (.evt "foo") ⟨5⟩] else []) :=
  ((delegated_listener_selector_filtering (fun t _ => t == 5) (.evt "foo") rfl
    1 "click" ⟨5⟩).2.1 ".item").2.2

/-- For a non-array value, the preparation pass replaces it by an attachment
function wrapping it — even when the value is itself an attachment function
produced by an earlier pass. -/
theorem prepareOnEntry_eq_attacher (v : OnValue) (hna : v.isArr = false) :
    prepareOnEntry v = .attacher v := by
  cases v <;> simp_all [prepareOnEntry, OnValue.isArr]

/-- Preparation maps the `on` map entrywise, so every entry survives with its
value passed through `prepareOnEntry`. -/
theorem mem_prepared_onMap (t : TDef) (k : String) (v : OnValue)
    (hv : (k, v) ∈ t.onMap) :
    (k, prepareOnEntry v) ∈ (prepareElementListeners t).onMap := by
  match t with
  | .mk onMap children =>
      have := List.mem_map_of_mem (fun p => (p.1, prepareOnEntry p.2)) hv
      simpa [prepareElementListeners, TDef.onMap] using this

/-- C10: listener preparation is not idempotent.  A first `render` replaces
each non-array `on` value `v` by the attachment function `attacher v`; a
second `render` runs the preparation pass again over the already-mutated
template and wraps the first-pass attachment function once more
(`attacher (attacher v)`).  A native event dispatched through the
doubly-prepared listener finds the captured value `attacher v` to be of
function type and therefore invokes the first-pass attachment function as if
it were a user callback, passing it the native event object. -/
theorem prepare_element_listeners_not_idempotent (s : ViewState) (t : TDef)
    (h : s.template = some t) (k : String) (v : OnValue)
    (hv : (k, v) ∈ t.onMap) (hna : v.isArr = false) :
    (k, .attacher v) ∈ (prepareElementListeners t).onMap ∧
    (k, .attacher (.attacher v)) ∈
      (prepareElementListeners (prepareElementListeners t)).onMap ∧
    (∃ e1 s1 tr1, render s = .ok (e1, s1, tr1) ∧
       s1.template = some (prepareElementListeners t) ∧
       ∃ e2 s2 tr2, render s1 = .ok (e2, s2, tr2) ∧
         s2.template =
           some (prepareElementListeners (prepareElementListeners t))) ∧
    (∀ (m : Nat → String → Bool) (elId : Nat) (n : String) (e : DomEvt),
       invokeAttacher (.attacher (.attacher v)) elId n none =
         some ⟨elId, n, none, .attacher v⟩ ∧
       fireNative m ⟨elId, n, none, .attacher v⟩ e =
         [.invokeFunction (.attacher v) e]) := by
  have h1 : (k, OnValue.attacher v) ∈ (prepareElementListeners t).onMap := by
    have := mem_prepared_onMap t k v hv
    rwa [prepareOnEntry_eq_attacher v hna] at this
  have h2 : (k, OnValue.attacher (.attacher v)) ∈
      (prepareElementListeners (prepareElementListeners t)).onMap := by
    have := mem_prepared_onMap (prepareElementListeners t) k (.attacher v) h1
    rwa [prepareOnEntry_eq_attacher (.attacher v) rfl] at this
  refine ⟨h1, h2, ?_, ?_⟩
  · refine ⟨s.nextElId,
      { s with template := some (prepareElementListeners t),
               _template := some (prepareElementListeners t),
               _el := some s.nextElId, nextElId := s.nextElId + 1 },
      [.rendered s.nextElId], ?_, by simp, s.nextElId + 1,
      { s with template := some (prepareElementListeners (prepareElementListeners t)),
               _template := some (prepareElementListeners (prepareElementListeners t)),
               _el := some (s.nextElId + 1), nextElId := s.nextElId + 2 },
      [.rendered (s.nextElId + 1)], ?_, by simp⟩
    · simp [render, h, prepareListeners]
    · simp [render, prepareListeners]
  · intro m elId n e
    exact ⟨rfl, by simp [fireNative, runListenerBody, OnValue.isFunction]⟩

/-- A concrete view whose template declares one function-valued `click`
listener. -/
def clickView : ViewState :=
  { model := some [], template := some (.mk [("click", .fn 3)] []),
    _el := none, _template := none, nextElId := 0, regions := [] }

/-- Witness for C10: after two preparation passes over `clickView`'s template,
the `click` entry holds a doubly-wrapped attachment function. -/
theorem prepare_element_listeners_not_idempotent_witness :
    ("click", OnValue.attacher (.attacher (.fn 3))) ∈
      (prepareElementListeners
        (prepareElementListeners (.mk [("click", .fn 3)] []))).onMap :=
  (prepare_element_listeners_not_idempotent clickView (.mk [("click", .fn 3)] [])
    rfl "click" (.fn 3) (List.Mem.head _) rfl).2.1

/-- A binding step never shrinks the handler list (attachment appends one
handler; a model mutation leaves the list unchanged). -/
theorem bstep_handlers_length_le (sem : Nat → Nat → JSVal → JSVal)
    (p : String) (s : BSys) (op : BOp) :
    s.handlers.length ≤ ((bstep sem p s op).1).handlers.length := by
  cases op <;> simp [bstep, attachStep, setProp]

/-- Once a handler exists, no later operation ever emits a synthetic
invocation for it: synthetic invocations are emitted only by the attachment
that creates a handler, with the handler index equal to the handler count at
that moment, which is strictly larger than the index of any existing handler;
model mutations emit only real invocations. -/
theorem brun_no_synthetic_for_existing (sem : Nat → Nat → JSVal → JSVal)
    (p : String) :
    ∀ (ops : List BOp) (s : BSys) (idx : Nat), idx < s.handlers.length →
      ∀ ev ∈ (brun sem p s ops).2, ∀ inv,
        ev ≠ BEvent.invoked .synthetic idx inv := by
  intro ops
  induction ops with
  | nil =>
      intro s idx hidx ev hev
      simp [brun] at hev
  | cons op ops ih =>
      intro s idx hidx ev hev inv
      rw [brun] at hev
      simp only [List.mem_append] at hev
      rcases hev with hev | hev
      · cases op with
        | attach e' u' =>
            simp only [bstep, attachStep, List.mem_cons, List.mem_map] at hev
            rcases hev with rfl | ⟨i, _, rfl⟩
            · simp
            · intro hcon
              have : s.handlers.length = idx := by
                injection hcon with h1 h2 h3
              omega
        | set v =>
            simp only [bstep, setProp] at hev
            rcases hcl : s.closure with _ | cb <;> rw [hcl] at hev
            · simp at hev
            · simp only [List.mem_flatMap, List.mem_map] at hev
              obtain ⟨q, _, i, _, rfl⟩ := hev
              intro hcon
              injection hcon with h1 h2 h3
              exact Origin.noConfusion h1
      · exact ih (bstep sem p s op).1 idx
          (Nat.lt_of_lt_of_le hidx (bstep_handlers_length_le sem p s op))
          ev hev inv

/-- C4: invoking the attachment function produced by `bind` first subscribes
the handler to `change:<p>` and then immediately performs exactly one
synthetic handler call with the model's current value `v0` (the block of
invocations right after the subscription event); in any continuation of the
run, no further synthetic invocation for that handler ever occurs, so every
real change notification delivered to it comes strictly after the synthetic
one. -/
theorem bind_attach_subscribes_then_synthetic_before_real
    (sem : Nat → Nat → JSVal → JSVal) (p : String) (s : BSys) (elId u : Nat)
    (post : List BOp) :
    ∃ rest,
      (brun sem p s (.attach elId u :: post)).2 =
        BEvent.subscribed s.handlers.length ("change:" ++ p) ::
        ((onModelChange sem (s.closure.getD u) u elId s.modelVal).map
          (fun i => BEvent.invoked .synthetic s.handlers.length i) ++ rest) ∧
      ∀ ev ∈ rest, ∀ inv,
        ev ≠ BEvent.invoked .synthetic s.handlers.length inv := by
  refine ⟨(brun sem p (attachStep sem p s elId u).1 post).2, ?_, ?_⟩
  · rw [brun]
    simp [bstep, attachStep]
  · intro ev hev inv
    refine brun_no_synthetic_for_existing sem p post _ s.handlers.length ?_ ev hev inv
    simp [attachStep]
